import Mathlib

/-!
Shallow embedding of `src/smolagents/e2b_executor.py`: the call-interception
and resumption protocol of `E2BExecutor`, its state-synchronization channel,
and its result-extraction logic.  Remote-sandbox behaviour (the `e2b` client)
is an external boundary and is modelled as an oracle `String → RunOutcome`;
everything else is translated from the source.
-/

namespace SmolagentsE2B

/-- Values moved across the local/remote boundary (capability results and
shared-state entries).  The module treats them as ordinary Python objects;
the embedding models them as strings, which is the common case for agent
answers and suffices for every property considered here. -/
abbrev Value := String

/-! ## String helpers modelling the Python primitives used by the module -/

/-- Python `str.splitlines()` restricted to the `\n` line break (the only
break the module's code strings contain): splits on `\n` and produces no
trailing empty line for a trailing newline. -/
def splitlinesAux : List Char → List Char → List String
  | [], acc => if acc.isEmpty then [] else [String.mk acc.reverse]
  | c :: rest, acc =>
    if c = '\n' then String.mk acc.reverse :: splitlinesAux rest []
    else splitlinesAux rest (c :: acc)

/-- `code_action.splitlines()` as used at line 192 of the source. -/
def splitlines (s : String) : List String :=
  splitlinesAux s.data []

/-- Python `s.split("=")[0]`: the text before the first `=`, or the whole
string when no `=` occurs. -/
def beforeFirstEq (s : String) : String :=
  String.mk (s.data.takeWhile fun c => c ≠ '=')

/-- Python `str.strip()`: remove leading and trailing whitespace. -/
def pyStrip (s : String) : String :=
  String.mk (((s.data.dropWhile Char.isWhitespace).reverse.dropWhile Char.isWhitespace).reverse)

/-- Substring containment over character lists (used to state facts about
generated code text). -/
def containsSub (needle : List Char) : List Char → Bool
  | [] => needle.isEmpty
  | c :: rest => needle.isPrefixOf (c :: rest) || containsSub needle rest

/-- Models Python `repr()` on the string values of this embedding: a
single-quoted literal with backslash, quote, newline, carriage-return and
tab escaped (the common case of `repr` for `str`, which is all the module
relies on at line 197). -/
def pyReprEscape : List Char → List Char
  | [] => []
  | c :: rest =>
    (if c = '\\' then ['\\', '\\']
     else if c = '\'' then ['\\', '\'']
     else if c = '\n' then ['\\', 'n']
     else if c = '\r' then ['\\', 'r']
     else if c = '\t' then ['\\', 't']
     else [c]) ++ pyReprEscape rest

/-- `repr(result)` at line 197 of the source. -/
def pyRepr (s : Value) : String :=
  "'" ++ String.mk (pyReprEscape s.data) ++ "'"

/-- Python's f-string rendering of an `Optional[int]`: `None` or the
decimal integer. -/
def pyShowOptInt : Option Int → String
  | none => "None"
  | some n => toString n

/-- Scans forward for a `)` before the next newline: the tail condition of a
`re.search` match for `final_answer\((.*?)\)` (where `.` does not match a
newline). -/
def closeParenSameLine : List Char → Bool
  | [] => false
  | c :: rest =>
    if c = ')' then true
    else if c = '\n' then false
    else closeParenSameLine rest

/-- Whether `re.search(r"final_answer\((.*?)\)", code)` finds a match: some
occurrence of `final_answer(` is followed by a `)` on the same line
(source line 77 compiles the pattern, line 131 searches it). -/
def finalAnswerAux : List Char → Bool
  | [] => false
  | c :: rest =>
    (("final_answer(".data).isPrefixOf (c :: rest)
      && closeParenSameLine ((c :: rest).drop ("final_answer(".data).length))
    || finalAnswerAux rest

/-- `self.final_answer_pattern.search(code) is not None` (source line 131). -/
def hasFinalAnswerCall (code : String) : Bool :=
  finalAnswerAux code.data

/-! ## Shared-state bundles (Python dicts of named values) -/

/-- A `SharedStateBundle`: Python dict from variable name to value, modelled
as an insertion-ordered association list with unique keys. -/
abbrev Bundle := List (String × Value)

/-- Python `d[k]` lookup (first matching key). -/
def bLookup : Bundle → String → Option Value
  | [], _ => none
  | (k, v) :: rest, key => if k = key then some v else bLookup rest key

/-- Python `d[k] = v`: replace the value at an existing key in place, else
append the new binding. -/
def bInsert : Bundle → String → Value → Bundle
  | [], key, v => [(key, v)]
  | (k, w) :: rest, key, v =>
    if k = key then (k, v) :: rest else (k, w) :: bInsert rest key v

/-- Python `locals().update(d)`: rebind every key of `d`, in order. -/
def bUpdateAll (vars : Bundle) : Bundle → Bundle
  | [] => vars
  | (k, v) :: rest => bUpdateAll (bInsert vars k v) rest

/-- The key list of a bundle. -/
def bKeys (b : Bundle) : List String :=
  b.map Prod.fst

/-! ## Remote execution boundary -/

/-- The name/message/traceback triple of a failed remote execution
(`execution.error` of the e2b client). -/
structure RemoteError where
  name : String
  value : String
  traceback : String
  deriving DecidableEq, Repr

/-- One result artifact of a remote run, with its `is_main_result` flag and
its kind attributes, each either absent (Python `None`) or a payload string
(images are base64-encoded in transit). -/
structure Artifact where
  is_main_result : Bool := false
  jpeg : Option String := none
  png : Option String := none
  chart : Option String := none
  data : Option String := none
  html : Option String := none
  javascript : Option String := none
  json : Option String := none
  latex : Option String := none
  markdown : Option String := none
  pdf : Option String := none
  svg : Option String := none
  text : Option String := none
  deriving DecidableEq, Repr

/-- Python `getattr(result, attribute_name)` for the attribute names the
extractor iterates over (source lines 214 and 225-237). -/
def Artifact.getattr (r : Artifact) : String → Option String
  | "jpeg" => r.jpeg
  | "png" => r.png
  | "chart" => r.chart
  | "data" => r.data
  | "html" => r.html
  | "javascript" => r.javascript
  | "json" => r.json
  | "latex" => r.latex
  | "markdown" => r.markdown
  | "pdf" => r.pdf
  | "svg" => r.svg
  | "text" => r.text
  | _ => none

/-- The raw outcome of `self.sbx.run_code(code)`: either a structured
execution object, or (as the module's control flow assumes for capability
stubs) an `AgentCallInterruption` escaping the submission call. -/
structure Handoff where
  agent_name : String
  args : List Value
  kwargs : List (String × Value)
  line_number : Option Int
  deriving DecidableEq, Repr

/-- The structured result object of one remote run. -/
structure Execution where
  stdoutLogs : List String
  error : Option RemoteError := none
  results : List Artifact := []
  deriving DecidableEq, Repr

/-- Behaviour of one `self.sbx.run_code(code)` call at the external
boundary. -/
inductive RunOutcome
  | exec (e : Execution)
  | interrupt (h : Handoff)
  deriving DecidableEq, Repr

/-! ## Exceptions raised by the module -/

/-- The Python exception classes observable from this module's raises. -/
inductive PyExcClass
  | valueError
  | keyError
  | agentCallInterruption
  deriving DecidableEq, Repr

/-- Exceptions the module can raise, tagged by raise site.  The three
`ValueError` sites (source lines 141, 202 and 244) are kept as distinct
constructors so that facts about individual failure conditions can be
stated; `pyClass` below recovers the Python exception type each one
surfaces as. -/
inductive Raised
  | remoteExecutionError (logs : String)
  | interceptionProtocolError (line_number : Option Int) (code_action : String)
  | missingFinalResultError
  | keyError (key : String)
  | interruption (h : Handoff)
  deriving DecidableEq, Repr

/-- The Python exception class of each raise: all three failure raises of
the module are `ValueError`; an unresolvable capability name surfaces as
the dict's `KeyError`; an interception is `AgentCallInterruption`. -/
def Raised.pyClass : Raised → PyExcClass
  | .remoteExecutionError _ => .valueError
  | .interceptionProtocolError _ _ => .valueError
  | .missingFinalResultError => .valueError
  | .keyError _ => .keyError
  | .interruption _ => .agentCallInterruption

/-- The exception message at each raise site (source lines 51-53, 141,
202-204 and 244). -/
def Raised.message : Raised → String
  | .remoteExecutionError logs => logs
  | .interceptionProtocolError ln code =>
      "Invalid line number " ++ pyShowOptInt ln ++ " for code action:\n" ++ code
  | .missingFinalResultError => "No main result returned by executor!"
  | .keyError k => k
  | .interruption h =>
      "Sub-agent call interruption for '" ++ h.agent_name ++ "' at line "
        ++ pyShowOptInt h.line_number

/-- The combined diagnostic string built at source lines 135-140: joined
stdout logs, then the fixed text, then the remote error's name, message and
traceback, concatenated without separators exactly as the `+=` chain does. -/
def errorLogs (stdoutLogs : List String) (err : RemoteError) : String :=
  String.intercalate "\n" stdoutLogs
    ++ "Executing code yielded an error:" ++ err.name ++ err.value ++ err.traceback

/-- `E2BExecutor.run_code_raise_errors` (source lines 130-142): scan the
code for the final-answer pattern (setting the session flag), submit it,
and raise a `ValueError` with combined diagnostics when the execution
reports an error.  Returns the updated flag together with either the
execution or the raised exception. -/
def run_code_raise_errors (remote : String → RunOutcome) (final_answer : Bool)
    (code : String) : Bool × Except Raised Execution :=
  let fa := final_answer || hasFinalAnswerCall code
  match remote code with
  | .interrupt h => (fa, Except.error (Raised.interruption h))
  | .exec e =>
    match e.error with
    | some err => (fa, Except.error (Raised.remoteExecutionError (errorLogs e.stdoutLogs err)))
    | none => (fa, Except.ok e)

/-! ## Result extraction (source lines 208-245) -/

/-- A value returned by result extraction: a decoded image (the constructor
records the base64 payload handed to `base64.b64decode`/`Image.open`, the
out-of-scope decoding boundary) or the raw attribute value of a
structured-document kind. -/
inductive OutValue
  | image (b64payload : String)
  | raw (v : String)
  deriving DecidableEq, Repr

/-- The image attribute names checked first (source line 214). -/
def imageAttributeNames : List String := ["jpeg", "png"]

/-- The structured-document attribute names in their fixed priority order
(source lines 225-236). -/
def docAttributeNames : List String :=
  ["chart", "data", "html", "javascript", "json", "latex", "markdown", "pdf", "svg", "text"]

/-- First attribute in `names` that is not `None` on `r`, as the inner
`for`/`if ... is not None` loops do. -/
def firstAttr (r : Artifact) : List String → Option String
  | [] => none
  | a :: rest =>
    match r.getattr a with
    | some v => some v
    | none => firstAttr r rest

/-- The body of the outer `for result in execution.results` loop for one
artifact: if it is the main result, return the image decoded from the first
present image attribute, else the first present document attribute; a main
result with no present attribute falls through (`none`). -/
def tryMainResult (fa : Bool) (logs : String) (r : Artifact) :
    Option (Option OutValue × String × Bool) :=
  if r.is_main_result then
    match firstAttr r imageAttributeNames with
    | some payload => some (some (OutValue.image payload), logs, fa)
    | none =>
      match firstAttr r docAttributeNames with
      | some v => some (some (OutValue.raw v), logs, fa)
      | none => none
  else none

/-- The outer `for result in execution.results` loop: first artifact that
yields a return value. -/
def scanResults (fa : Bool) (logs : String) : List Artifact → Option (Option OutValue × String × Bool)
  | [] => none
  | r :: rest =>
    match tryMainResult fa logs r with
    | some out => some out
    | none => scanResults fa logs rest

/-- The result-extraction tail of `E2BExecutor.__call__` (source lines
208-245): empty result list returns `(None, logs, final_answer)`; otherwise
the first main artifact's value is returned; when no artifact yields a
value, final-answer mode raises the missing-main-result `ValueError` and
otherwise `(None, logs, False)` is returned. -/
def extractResult (fa : Bool) (logs : String) (results : List Artifact) :
    Except Raised (Option OutValue × String × Bool) :=
  if results.isEmpty then Except.ok (none, logs, fa)
  else
    match scanResults fa logs results with
    | some out => Except.ok out
    | none =>
      if fa then Except.error Raised.missingFinalResultError
      else Except.ok (none, logs, false)

/-! ## Session setup (source lines 57-128) -/

/-- `self.final_answer = False` (source line 76): the session's final-answer
flag starts unset. -/
def initFinalAnswer : Bool := false

/-- The remote-side stub installed for one managed-agent name (source lines
118-125, after `textwrap.dedent` of the f-string): note the raised
interruption's first argument is the string literal `"sub_agent"`, not the
interpolated agent name. -/
def stubDefinitionCode (agent_name : String) : String :=
  "\ndef " ++ agent_name ++ "(*args, **kwargs):\n"
    ++ "    line_no = sys._getframe(1).f_lineno\n"
    ++ "    raise AgentCallInterruption(\"sub_agent\", args, kwargs, line_number=line_no)\n"

/-- The interception report produced when the stub named `agent_name` is
invoked at source line `line_no` of the running code: per the generated
code above, the reported capability-name field is the literal
`"sub_agent"` regardless of which stub was called. -/
def stubReport (agent_name : String) (args : List Value)
    (kwargs : List (String × Value)) (line_no : Int) : Handoff :=
  { agent_name := "sub_agent", args := args, kwargs := kwargs, line_number := some line_no }

/-! ## State channel (source lines 144-163 and 179-186) -/

/-- The remote environment's state visible to this module: the staged
pickle file at the fixed path `/home/state.pkl`, and the remote variable
bindings established by the module's deserialization code. -/
structure Sandbox where
  stagedFile : Option Bundle := none
  vars : Bundle := []
  deriving DecidableEq, Repr

/-- `self.sbx.files.write("/home/state.pkl", file)` with the pickled bundle
(source lines 149-153 and 182-186): overwrites the staged file with the
full serialized bundle. -/
def pushState (sbx : Sandbox) (bundle : Bundle) : Sandbox :=
  { sbx with stagedFile := some bundle }

/-- The exact code string submitted to deserialize the staged bundle
remotely (source lines 154-160). -/
def remote_unloading_code : String :=
  "import pickle\nimport os\n"
    ++ "print(\"File path\", os.path.getsize('/home/state.pkl'))\n"
    ++ "with open('/home/state.pkl', 'rb') as f:\n"
    ++ "    pickle_dict = pickle.load(f)\n"
    ++ "locals().update(\x7bkey: value for key, value in pickle_dict.items()\x7d)\n"

/-- Effect of executing `remote_unloading_code` in the sandbox: load the
staged pickle and rebind every one of its keys in the remote namespace. -/
def runUnloading (sbx : Sandbox) : Sandbox :=
  { sbx with vars := bUpdateAll sbx.vars (sbx.stagedFile.getD []) }

/-! ## Resumption controller (source lines 144-245) -/

/-- A locally invocable managed agent: positional and keyword arguments to
a result value. -/
abbrev AgentFun := List Value → List (String × Value) → Value

/-- `self.managed_agents`: capability name to local callable. -/
abbrev Agents := List (String × AgentFun)

/-- Python `self.managed_agents[name]`, `None` standing for the dict's
`KeyError` path. -/
def lookupAgent : Agents → String → Option AgentFun
  | [], _ => none
  | (k, f) :: rest, key => if k = key then some f else lookupAgent rest key

/-- The check at source lines 193-195:
`handoff.line_number is not None and 0 < handoff.line_number <= len(lines)`. -/
def validLineNumber : Option Int → Nat → Bool
  | none, _ => false
  | some n, len => decide (0 < n) && decide (n ≤ (len : Int))

/-- The code rewrite at source lines 196-200: split the code into lines,
take the text before the first `=` of the reported line (stripped) as the
assignment target, and join `target = repr(result)` with the lines from the
reported line onward (`lines[handoff.line_number - 1 :]`). -/
def rewriteCodeAction (code_action : String) (line_number : Nat) (result : Value) : String :=
  let lines := splitlines code_action
  let lhsTarget := pyStrip (beforeFirstEq (lines.getD (line_number - 1) ""))
  let assignment_line := lhsTarget ++ " = " ++ pyRepr result
  String.intercalate "\n" (assignment_line :: lines.drop (line_number - 1))

/-- Evolving state of one external `__call__`: the sandbox, the (mutated)
`additional_args` dict, the session's final-answer flag, plus two traces
used to state properties: every code string submitted for remote
execution, and every local capability invocation. -/
structure CallState where
  sbx : Sandbox := {}
  additional_args : Bundle := []
  final_answer : Bool := false
  submissions : List String := []
  invocations : List (String × List Value × List (String × Value)) := []
  deriving DecidableEq, Repr

/-- Outcome of one external `__call__`: the returned
`(result, logs, final_answer)` triple, a raised exception, or fuel
exhaustion of the resumption loop. -/
inductive CallResult
  | ok (value : Option OutValue) (logs : String) (final_answer : Bool)
  | raised (e : Raised)
  | fuelOut
  deriving DecidableEq, Repr

/-- The `while True` resumption loop of `E2BExecutor.__call__` (source
lines 165-245), fuel-bounded: submit the code; on success extract the
result; on an interception, invoke the named agent locally, store its
result in `additional_args`, re-upload the staged state file, and either
resubmit the rewritten code (valid reported line) or raise the
invalid-line `ValueError`. -/
def callLoop (remote : String → RunOutcome) (agents : Agents) :
    Nat → String → CallState → CallState × CallResult
  | 0, _, st => (st, CallResult.fuelOut)
  | fuel + 1, code_action, st =>
    let out := run_code_raise_errors remote st.final_answer code_action
    let st1 : CallState :=
      { st with final_answer := out.1, submissions := st.submissions ++ [code_action] }
    match out.2 with
    | Except.ok e =>
      let logs := String.intercalate "\n" e.stdoutLogs
      match extractResult st1.final_answer logs e.results with
      | Except.ok (v, l, b) => (st1, CallResult.ok v l b)
      | Except.error err => (st1, CallResult.raised err)
    | Except.error (Raised.interruption h) =>
      match lookupAgent agents h.agent_name with
      | none => (st1, CallResult.raised (Raised.keyError h.agent_name))
      | some f =>
        let result := f h.args h.kwargs
        let newArgs := bInsert st1.additional_args h.agent_name result
        let st2 : CallState :=
          { st1 with
            invocations := st1.invocations ++ [(h.agent_name, h.args, h.kwargs)]
            additional_args := newArgs
            sbx := pushState st1.sbx newArgs }
        if validLineNumber h.line_number (splitlines code_action).length then
          callLoop remote agents fuel
            (rewriteCodeAction code_action ((h.line_number.getD 0).toNat) result) st2
        else
          (st2, CallResult.raised (Raised.interceptionProtocolError h.line_number code_action))
    | Except.error e => (st1, CallResult.raised e)

/-- `E2BExecutor.__call__` (source lines 144-245): when `additional_args`
is non-empty, pickle it to the staged file and run
`remote_unloading_code` (whose success rebinds the pushed keys remotely),
then enter the resumption loop on `code_action`. -/
def call (remote : String → RunOutcome) (agents : Agents) (fuel : Nat)
    (code_action : String) (additional_args : Bundle) (sbx : Sandbox)
    (final_answer : Bool) : CallState × CallResult :=
  let st0 : CallState :=
    { sbx := sbx, additional_args := additional_args, final_answer := final_answer }
  if additional_args.length ≠ 0 then
    let st1 := { st0 with sbx := pushState st0.sbx additional_args }
    let out := run_code_raise_errors remote st1.final_answer remote_unloading_code
    let st2 :=
      { st1 with final_answer := out.1, submissions := st1.submissions ++ [remote_unloading_code] }
    match out.2 with
    | Except.error e => (st2, CallResult.raised e)
    | Except.ok _ =>
      callLoop remote agents fuel code_action { st2 with sbx := runUnloading st2.sbx }
  else
    callLoop remote agents fuel code_action st0

/-! ## Concrete scenarios used to settle individual claims -/

/-- A remote environment that completes every submission silently with no
artifacts. -/
def oracleQuiet (_ : String) : RunOutcome :=
  RunOutcome.exec { stdoutLogs := [] }

/-- Remote behaviour of the single-capability-call scenario: intercept at
the first line containing a call of `agent(`, as the installed stub would,
reporting that 1-based line; complete silently otherwise. -/
def oracleSingleCall (c : String) : RunOutcome :=
  match (splitlines c).findIdx? (fun l => containsSub ("agent(".data) l.data) with
  | some i => RunOutcome.interrupt
      { agent_name := "sub_agent", args := ["1"], kwargs := [], line_number := some ((i : Int) + 1) }
  | none => RunOutcome.exec { stdoutLogs := [] }

/-- One managed agent, keyed under the name the generated stubs actually
report, returning `"r"`. -/
def agentsSingle : Agents := [("sub_agent", fun _ _ => "r")]

/-- The code action of the state-repush scenario. -/
def codeRepush : String := "y = agent(1)\ndone = 1"

/-- Remote behaviour of the state-repush scenario: the original code action
is intercepted at line 1; everything else (the state-unloading code and the
rewritten code) completes silently. -/
def oracleRepush (c : String) : RunOutcome :=
  if c = codeRepush then
    RunOutcome.interrupt
      { agent_name := "sub_agent", args := [], kwargs := [], line_number := some 1 }
  else RunOutcome.exec { stdoutLogs := [] }

/-- The managed agent of the state-repush scenario, returning `"v2"`. -/
def agentsRepush : Agents := [("sub_agent", fun _ _ => "v2")]

/-- The code action of the non-assignment call-site scenario: the capability
call appears inside a `print(...)` expression, not as an assignment. -/
def codeNonAssign : String := "print(agent(1))\nrest = 2"

/-- Remote behaviour of the non-assignment scenario: the original code is
intercepted at line 1; the rewritten code completes silently. -/
def oracleNonAssign (c : String) : RunOutcome :=
  if c = codeNonAssign then
    RunOutcome.interrupt
      { agent_name := "sub_agent", args := [], kwargs := [], line_number := some 1 }
  else RunOutcome.exec { stdoutLogs := [] }

/-- Remote behaviour reproducing the interception an installed stub named
`researcher` produces when called with one positional argument. -/
def oracleResearcher (_ : String) : RunOutcome :=
  RunOutcome.interrupt (stubReport "researcher" ["q"] [] 1)

/-! ## Helper lemmas -/

/-- The flag produced by one `run_code_raise_errors` call is the old flag
disjoined with the pattern match on the submitted code. -/
theorem run_code_flag (remote : String → RunOutcome) (fa : Bool) (code : String) :
    (run_code_raise_errors remote fa code).1 = (fa || hasFinalAnswerCall code) := by
  unfold run_code_raise_errors
  cases hr : remote code with
  | interrupt h => simp
  | exec e => cases he : e.error <;> simp [he]

/-- `tryMainResult` always reports the flag and logs it was given. -/
theorem tryMainResult_flag (fa : Bool) (logs : String) (r : Artifact)
    (v : Option OutValue) (l : String) (b : Bool)
    (h : tryMainResult fa logs r = some (v, l, b)) : b = fa ∧ l = logs := by
  unfold tryMainResult at h
  split at h
  · split at h
    · simp_all
    · split at h <;> simp_all
  · simp_all

/-- `scanResults` always reports the flag and logs it was given. -/
theorem scanResults_flag :
    ∀ (rs : List Artifact) (fa : Bool) (logs : String) (v : Option OutValue) (l : String) (b : Bool),
      scanResults fa logs rs = some (v, l, b) → b = fa ∧ l = logs := by
  intro rs
  induction rs with
  | nil => intro fa logs v l b h; simp [scanResults] at h
  | cons r rest ih =>
    intro fa logs v l b h
    unfold scanResults at h
    cases ht : tryMainResult fa logs r with
    | some out => rw [ht] at h; exact tryMainResult_flag fa logs r v l b (by simp_all)
    | none => rw [ht] at h; exact ih fa logs v l b h

/-- A successful extraction returns exactly the session's current flag. -/
theorem extractResult_flag (fa : Bool) (logs : String) (rs : List Artifact)
    (v : Option OutValue) (l : String) (b : Bool)
    (h : extractResult fa logs rs = Except.ok (v, l, b)) : b = fa := by
  unfold extractResult at h
  split at h
  · simp_all
  · cases hs : scanResults fa logs rs with
    | some out =>
      rw [hs] at h
      obtain ⟨o1, o2, o3⟩ := out
      have := scanResults_flag rs fa logs o1 o2 o3 hs
      simp_all
    | none =>
      rw [hs] at h
      rcases Bool.eq_false_or_eq_true fa with hfa | hfa <;> simp [hfa] at h <;> simp_all

/-- No artifact flagged main means the artifact scan yields nothing. -/
theorem scanResults_none_of_no_main :
    ∀ (rs : List Artifact) (fa : Bool) (logs : String),
      (∀ r ∈ rs, r.is_main_result = false) → scanResults fa logs rs = none := by
  intro rs
  induction rs with
  | nil => intro fa logs _; rfl
  | cons r rest ih =>
    intro fa logs h
    have hr : r.is_main_result = false := h r (List.mem_cons_self r rest)
    unfold scanResults
    rw [show tryMainResult fa logs r = none by unfold tryMainResult; simp [hr]]
    exact ih fa logs fun a ha => h a (List.mem_cons_of_mem r ha)

/-- A scan skips a prefix of artifacts none of which is flagged main. -/
theorem scanResults_append_no_main :
    ∀ (pre : List Artifact) (rs : List Artifact) (fa : Bool) (logs : String),
      (∀ r ∈ pre, r.is_main_result = false) →
      scanResults fa logs (pre ++ rs) = scanResults fa logs rs := by
  intro pre
  induction pre with
  | nil => intro rs fa logs _; rfl
  | cons p ps ih =>
    intro rs fa logs h
    have hp : p.is_main_result = false := h p (List.mem_cons_self p ps)
    have htry : tryMainResult fa logs p = none := by unfold tryMainResult; simp [hp]
    rw [List.cons_append]
    simp only [scanResults, htry]
    exact ih rs fa logs fun a ha => h a (List.mem_cons_of_mem p ha)

/-- Looking up the key just inserted. -/
theorem bLookup_bInsert_self :
    ∀ (bs : Bundle) (k : String) (v : Value), bLookup (bInsert bs k v) k = some v := by
  intro bs
  induction bs with
  | nil => intro k v; simp [bInsert, bLookup]
  | cons p rest ih =>
    intro k v
    obtain ⟨k0, v0⟩ := p
    unfold bInsert
    by_cases hk : k0 = k
    · simp [hk, bLookup]
    · simp [hk, bLookup, ih]

/-- Inserting at a different key leaves a lookup unchanged. -/
theorem bLookup_bInsert_ne :
    ∀ (bs : Bundle) (k' k : String) (v : Value), k' ≠ k →
      bLookup (bInsert bs k' v) k = bLookup bs k := by
  intro bs
  induction bs with
  | nil => intro k' k v hne; simp [bInsert, bLookup, hne]
  | cons p rest ih =>
    intro k' k v hne
    obtain ⟨k0, v0⟩ := p
    unfold bInsert
    by_cases hk : k0 = k'
    · subst hk; simp [bLookup, hne]
    · simp [hk, bLookup]
      by_cases hk0 : k0 = k <;> simp [hk0, ih k' k v hne]

/-- Rebinding a bundle whose keys avoid `k` leaves `k`'s binding unchanged. -/
theorem bUpdateAll_lookup_not_mem :
    ∀ (b : Bundle) (vars : Bundle) (k : String), k ∉ bKeys b →
      bLookup (bUpdateAll vars b) k = bLookup vars k := by
  intro b
  induction b with
  | nil => intro vars k _; rfl
  | cons p rest ih =>
    intro vars k hk
    obtain ⟨k0, v0⟩ := p
    have hne : k0 ≠ k := by
      intro he; exact hk (by simp [bKeys, he])
    have hrest : k ∉ bKeys rest := fun hm => hk (by simp [bKeys] at hm ⊢; exact Or.inr hm)
    unfold bUpdateAll
    rw [ih (bInsert vars k0 v0) k hrest, bLookup_bInsert_ne vars k0 k v0 hne]

/-- Rebinding every key of a duplicate-free bundle makes each of its
bindings visible afterwards. -/
theorem bUpdateAll_lookup :
    ∀ (b : Bundle) (vars : Bundle) (k : String) (v : Value),
      (bKeys b).Nodup → bLookup b k = some v →
      bLookup (bUpdateAll vars b) k = some v := by
  intro b
  induction b with
  | nil => intro vars k v _ h; simp [bLookup] at h
  | cons p rest ih =>
    intro vars k v hnodup h
    obtain ⟨k0, v0⟩ := p
    simp only [bKeys, List.map_cons] at hnodup
    have hnm : k0 ∉ List.map Prod.fst rest := (List.nodup_cons.mp hnodup).1
    have hnodup' : (bKeys rest).Nodup := by
      simp only [bKeys]; exact (List.nodup_cons.mp hnodup).2
    unfold bUpdateAll
    by_cases hk : k0 = k
    · subst hk
      have hv : v0 = v := by simpa [bLookup] using h
      subst hv
      have hnm' : k0 ∉ bKeys rest := by simp only [bKeys]; exact hnm
      rw [bUpdateAll_lookup_not_mem rest (bInsert vars k0 v0) k0 hnm']
      exact bLookup_bInsert_self vars k0 v0
    · have h' : bLookup rest k = some v := by simpa [bLookup, hk] using h
      exact ih (bInsert vars k0 v0) k v hnodup' h'

/-- The resumption loop never unsets the final-answer flag. -/
theorem callLoop_flag_mono (remote : String → RunOutcome) (agents : Agents) :
    ∀ (fuel : Nat) (code : String) (st : CallState), st.final_answer = true →
      (callLoop remote agents fuel code st).1.final_answer = true := by
  intro fuel
  induction fuel with
  | zero => intro code st h; simpa [callLoop] using h
  | succ n ih =>
    intro code st h
    simp only [callLoop, run_code_raise_errors, h, Bool.true_or]
    cases hr : remote code with
    | interrupt h' =>
      simp only [hr]
      cases hl : lookupAgent agents h'.agent_name with
      | none => simp
      | some f =>
        simp only []
        split
        · exact ih _ _ (by simp)
        · simp
    | exec e =>
      simp only [hr]
      cases he : e.error with
      | some err => simp [he]
      | none =>
        simp only [he]
        rcases hx : extractResult true (String.intercalate "\n" e.stdoutLogs) e.results with e' | out
        · simp [hx]
        · obtain ⟨v', l', b'⟩ := out
          simp [hx]

/-- The flag returned alongside a normal result equals the session's flag
at return time. -/
theorem callLoop_ok_flag (remote : String → RunOutcome) (agents : Agents) :
    ∀ (fuel : Nat) (code : String) (st : CallState) (v : Option OutValue) (l : String) (b : Bool),
      (callLoop remote agents fuel code st).2 = CallResult.ok v l b →
      b = (callLoop remote agents fuel code st).1.final_answer := by
  intro fuel
  induction fuel with
  | zero => intro code st v l b h; simp [callLoop] at h
  | succ n ih =>
    intro code st v l b h
    simp only [callLoop, run_code_raise_errors] at h ⊢
    cases hr : remote code with
    | interrupt h' =>
      simp only [hr] at h ⊢
      cases hl : lookupAgent agents h'.agent_name with
      | none => simp [hl] at h
      | some f =>
        simp only [hl] at h ⊢
        split at h
        · rename_i hv
          simp only [hv, if_true] at h ⊢
          exact ih _ _ v l b h
        · rename_i hv
          simp only [hv, if_false] at h ⊢
          simp at h
    | exec e =>
      simp only [hr] at h ⊢
      cases he : e.error with
      | some err => simp [he] at h
      | none =>
        simp only [he] at h ⊢
        rcases hx : extractResult (st.final_answer || hasFinalAnswerCall code)
            (String.intercalate "\n" e.stdoutLogs) e.results with e' | out
        · simp [hx] at h
        · obtain ⟨v', l', b'⟩ := out
          simp only [hx] at h ⊢
          have hb : b' = (st.final_answer || hasFinalAnswerCall code) :=
            extractResult_flag _ _ _ _ _ _ hx
          simp_all

/-! ## Claims -/

/-- Claim C1 (code bug): for a code action whose only capability call is the
assignment `x = agent(1)` at line 1, the rewrite at source lines 196-200
prepends `x = 'r'` but keeps `lines[line_number - 1 :]`, which still begins
with the original call line — the call line is retained, not replaced, so
each resubmission is intercepted again: three submissions happen within
fuel 3 and the loop does not complete, contradicting the claimed total of
exactly two remote submissions. -/
theorem C1_rewrite_retains_call_line :
    rewriteCodeAction "x = agent(1)\nprint(x)" 1 "r" = "x = 'r'\nx = agent(1)\nprint(x)"
    ∧ (call oracleSingleCall agentsSingle 3 "x = agent(1)\nprint(x)" [] {} false).1.submissions
        = ["x = agent(1)\nprint(x)", "x = 'r'\nx = agent(1)\nprint(x)",
           "x = 'r'\nx = agent(1)\nprint(x)"]
    ∧ (call oracleSingleCall agentsSingle 3 "x = agent(1)\nprint(x)" [] {} false).2
        = CallResult.fuelOut := by
  refine ⟨?_, ?_, ?_⟩ <;> rfl

/-- Claim C2 (code bug): the stub generated for a managed agent named
`researcher` (source lines 118-125) hard-codes the reported capability name
as the literal `"sub_agent"` instead of interpolating the agent's name, so
the report's name field differs from the stub's name and the controller's
lookup `self.managed_agents[handoff.agent_name]` raises `KeyError` for any
session whose managed agents are not literally named `sub_agent`. -/
theorem C2_stub_reports_hardcoded_name :
    (stubReport "researcher" ["q"] [] 1).agent_name = "sub_agent"
    ∧ containsSub ("AgentCallInterruption(\"sub_agent\"".data)
        (stubDefinitionCode "researcher").data = true
    ∧ containsSub ("AgentCallInterruption(\"researcher\"".data)
        (stubDefinitionCode "researcher").data = false
    ∧ (callLoop oracleResearcher [("researcher", fun _ _ => "ans")] 1
        "x = researcher('q')" {}).2 = CallResult.raised (Raised.keyError "sub_agent") := by
  refine ⟨?_, ?_, ?_, ?_⟩ <;> rfl

/-- Claim C3 (counterexample): a remote execution error and the
missing-final-result failure surface as the same Python exception type
(`ValueError`), so the failure classes do not reach the caller as distinct
typed conditions. -/
theorem C3_counterexample :
    Raised.pyClass (Raised.remoteExecutionError "boom")
        = Raised.pyClass Raised.missingFinalResultError
    ∧ Raised.pyClass (Raised.interceptionProtocolError none "c") = PyExcClass.valueError :=
  ⟨rfl, rfl⟩

/-- Claim C3 (amended): the interception signal is a distinct exception
type (`AgentCallInterruption`) and is never surfaced by the submission
operation as the `ValueError` used for remote errors; but the three failure
classes — remote execution error, interception-protocol error and
missing-final-result error — all surface as the single exception type
`ValueError`, distinguished only by message. -/
theorem C3_amended_interception_distinct_type
    (remote : String → RunOutcome) (fa : Bool) (code : String) (h : Handoff)
    (hrun : remote code = RunOutcome.interrupt h) :
    (run_code_raise_errors remote fa code).2 = Except.error (Raised.interruption h)
    ∧ (Raised.interruption h).pyClass ≠ PyExcClass.valueError
    ∧ (∀ logs, (Raised.remoteExecutionError logs).pyClass = PyExcClass.valueError)
    ∧ (∀ ln c, (Raised.interceptionProtocolError ln c).pyClass = PyExcClass.valueError)
    ∧ Raised.missingFinalResultError.pyClass = PyExcClass.valueError := by
  refine ⟨?_, by simp [Raised.pyClass], fun _ => rfl, fun _ _ => rfl, rfl⟩
  simp [run_code_raise_errors, hrun]

/-- Witness for the amended C3 at a concrete remote behaviour. -/
theorem C3_amended_witness :
    (run_code_raise_errors oracleResearcher false "x = researcher('q')").2
        = Except.error (Raised.interruption (stubReport "researcher" ["q"] [] 1))
    ∧ (Raised.interruption (stubReport "researcher" ["q"] [] 1)).pyClass
        ≠ PyExcClass.valueError
    ∧ (∀ logs, (Raised.remoteExecutionError logs).pyClass = PyExcClass.valueError)
    ∧ (∀ ln c, (Raised.interceptionProtocolError ln c).pyClass = PyExcClass.valueError)
    ∧ Raised.missingFinalResultError.pyClass = PyExcClass.valueError :=
  C3_amended_interception_distinct_type oracleResearcher false "x = researcher('q')"
    (stubReport "researcher" ["q"] [] 1) rfl

/-- Claim C4 (counterexample): with final-answer mode active and an
execution producing zero artifacts, the call returns
`(None, logs, True)` instead of failing — the zero-artifact case short
circuits at source line 209 before the missing-result check at line 243. -/
theorem C4_counterexample :
    extractResult true "logs" [] = Except.ok (none, "logs", true)
    ∧ (callLoop oracleQuiet [] 1 "final_answer(x)" {}).2 = CallResult.ok none "" true := by
  refine ⟨?_, ?_⟩ <;> rfl

/-- Claim C4 (amended): when final-answer mode is active and the execution
produced a non-empty artifact list none of which is flagged main, the call
fails with the missing-final-result error; the zero-artifact case instead
returns an empty result together with the final-answer flag. -/
theorem C4_amended_missing_final_result
    (remote : String → RunOutcome) (agents : Agents) (fuel : Nat) (code : String)
    (st : CallState) (e : Execution)
    (hrun : remote code = RunOutcome.exec e) (hnoerr : e.error = none)
    (hfa : st.final_answer = true) (hne : e.results ≠ [])
    (hnomain : ∀ r ∈ e.results, r.is_main_result = false) :
    (callLoop remote agents (fuel + 1) code st).2
      = CallResult.raised Raised.missingFinalResultError := by
  have hx : extractResult (st.final_answer || hasFinalAnswerCall code)
      (String.intercalate "\n" e.stdoutLogs) e.results
      = Except.error Raised.missingFinalResultError := by
    rw [hfa, Bool.true_or]
    obtain ⟨a, as, hcons⟩ := List.exists_cons_of_ne_nil hne
    rw [hcons]
    have h1 := scanResults_none_of_no_main (a :: as) true
      (String.intercalate "\n" e.stdoutLogs) (hcons ▸ hnomain)
    simp [extractResult, h1]
  simp [callLoop, run_code_raise_errors, hrun, hnoerr, hx]

/-- Witness for the amended C4 at a concrete execution. -/
theorem C4_amended_witness :
    (callLoop (fun _ => RunOutcome.exec
        { stdoutLogs := [], results := [{ is_main_result := false }] })
      [] 1 "c" { final_answer := true }).2
      = CallResult.raised Raised.missingFinalResultError :=
  C4_amended_missing_final_result _ [] 0 "c" { final_answer := true }
    { stdoutLogs := [], results := [{ is_main_result := false }] }
    rfl rfl rfl (by decide) (by decide)

/-- Claim C5: an interception report whose line number is absent, zero,
negative, or greater than the code's line count makes the call fail with
the invalid-line-number condition (source lines 201-204), with no further
remote submission beyond the one that was intercepted. -/
theorem C5_invalid_line_fails_no_resubmission
    (remote : String → RunOutcome) (agents : Agents) (fuel : Nat) (code : String)
    (st : CallState) (h : Handoff) (f : AgentFun)
    (hrun : remote code = RunOutcome.interrupt h)
    (hagent : lookupAgent agents h.agent_name = some f)
    (hbad : validLineNumber h.line_number (splitlines code).length = false) :
    (callLoop remote agents (fuel + 1) code st).2
        = CallResult.raised (Raised.interceptionProtocolError h.line_number code)
    ∧ (callLoop remote agents (fuel + 1) code st).1.submissions
        = st.submissions ++ [code] := by
  constructor <;> simp [callLoop, run_code_raise_errors, hrun, hagent, hbad]

/-- Witness for C5 at a concrete interception with line number 0. -/
theorem C5_witness :
    (callLoop (fun _ => RunOutcome.interrupt
        { agent_name := "sub_agent", args := [], kwargs := [], line_number := some 0 })
      [("sub_agent", fun _ _ => "r")] 1 "x = 1" {}).2
        = CallResult.raised (Raised.interceptionProtocolError (some 0) "x = 1")
    ∧ (callLoop (fun _ => RunOutcome.interrupt
        { agent_name := "sub_agent", args := [], kwargs := [], line_number := some 0 })
      [("sub_agent", fun _ _ => "r")] 1 "x = 1" {}).1.submissions
        = ({} : CallState).submissions ++ ["x = 1"] :=
  C5_invalid_line_fails_no_resubmission _ _ 0 "x = 1" {}
    { agent_name := "sub_agent", args := [], kwargs := [], line_number := some 0 }
    (fun _ _ => "r") rfl rfl rfl

/-- Claim C6 (counterexample): with final-answer mode active and a
non-empty artifact list containing no artifact flagged main, extraction
raises the missing-final-result error rather than returning a no-result
outcome, so the claim's unconditional no-result clause fails. -/
theorem C6_counterexample :
    extractResult true "l" [{ is_main_result := false }]
      = Except.error Raised.missingFinalResultError := by rfl

/-- Claim C6 (amended): extraction skips artifacts not flagged main; for a
main artifact the image attributes are decoded first (its
structured-document fields, left arbitrary here, are never inspected),
otherwise the first present attribute in the fixed document order is
returned; with no main artifact it returns a no-result outcome when
final-answer mode is inactive, and raises the missing-final-result error
when final-answer mode is active and the artifact list is non-empty. -/
theorem C6_amended_extraction_order :
    (∀ (fa : Bool) (logs : String) (pre rest : List Artifact) (r : Artifact) (p : String),
        (∀ a ∈ pre, a.is_main_result = false) → r.is_main_result = true →
        firstAttr r imageAttributeNames = some p →
        extractResult fa logs (pre ++ r :: rest)
          = Except.ok (some (OutValue.image p), logs, fa))
    ∧ (∀ (fa : Bool) (logs : String) (pre rest : List Artifact) (r : Artifact) (v : String),
        (∀ a ∈ pre, a.is_main_result = false) → r.is_main_result = true →
        firstAttr r imageAttributeNames = none →
        firstAttr r docAttributeNames = some v →
        extractResult fa logs (pre ++ r :: rest)
          = Except.ok (some (OutValue.raw v), logs, fa))
    ∧ (∀ (logs : String) (results : List Artifact),
        (∀ a ∈ results, a.is_main_result = false) →
        extractResult false logs results = Except.ok (none, logs, false))
    ∧ (∀ (logs : String) (results : List Artifact), results ≠ [] →
        (∀ a ∈ results, a.is_main_result = false) →
        extractResult true logs results = Except.error Raised.missingFinalResultError) := by
  refine ⟨?_, ?_, ?_, ?_⟩
  · intro fa logs pre rest r p hpre hmain himg
    have ht : tryMainResult fa logs r = some (some (OutValue.image p), logs, fa) := by
      unfold tryMainResult; simp [hmain, himg]
    have hscan : scanResults fa logs (pre ++ r :: rest)
        = some (some (OutValue.image p), logs, fa) := by
      rw [scanResults_append_no_main pre (r :: rest) fa logs hpre]
      simp only [scanResults, ht]
    have hemp : (pre ++ r :: rest).isEmpty = false := by cases pre <;> rfl
    simp [extractResult, hemp, hscan]
  · intro fa logs pre rest r v hpre hmain himg hdoc
    have ht : tryMainResult fa logs r = some (some (OutValue.raw v), logs, fa) := by
      unfold tryMainResult; simp [hmain, himg, hdoc]
    have hscan : scanResults fa logs (pre ++ r :: rest)
        = some (some (OutValue.raw v), logs, fa) := by
      rw [scanResults_append_no_main pre (r :: rest) fa logs hpre]
      simp only [scanResults, ht]
    have hemp : (pre ++ r :: rest).isEmpty = false := by cases pre <;> rfl
    simp [extractResult, hemp, hscan]
  · intro logs results hnomain
    cases results with
    | nil => rfl
    | cons a as =>
      have hscan := scanResults_none_of_no_main (a :: as) false logs hnomain
      simp [extractResult, hscan]
  · intro logs results hne hnomain
    obtain ⟨a, as, hcons⟩ := List.exists_cons_of_ne_nil hne
    subst hcons
    have hscan := scanResults_none_of_no_main (a :: as) true logs hnomain
    simp [extractResult, hscan]

/-- Witness for the amended C6: a secondary artifact is skipped and a main
artifact with both a `png` payload and a `text` field yields the decoded
image. -/
theorem C6_amended_witness :
    extractResult false "l"
      ([{ is_main_result := false, text := some "secondary" }]
        ++ { is_main_result := true, png := some "QUFB", text := some "t" } :: [])
      = Except.ok (some (OutValue.image "QUFB"), "l", false) :=
  C6_amended_extraction_order.1 false "l"
    [{ is_main_result := false, text := some "secondary" }] []
    { is_main_result := true, png := some "QUFB", text := some "t" } "QUFB"
    (by decide) rfl rfl

/-- Claim C7: the session's final-answer flag starts unset, a submission
sets it exactly when the submitted code matches the terminal finish-call
pattern (disjoined with the previous value, hence monotone and never
unset), and the boolean returned alongside a normal result equals the
session's flag at return time. -/
theorem C7_final_answer_flag_monotone :
    initFinalAnswer = false
    ∧ (∀ (remote : String → RunOutcome) (fa : Bool) (code : String),
        (run_code_raise_errors remote fa code).1 = (fa || hasFinalAnswerCall code))
    ∧ (∀ (remote : String → RunOutcome) (agents : Agents) (fuel : Nat)
        (code : String) (st : CallState), st.final_answer = true →
        (callLoop remote agents fuel code st).1.final_answer = true)
    ∧ (∀ (remote : String → RunOutcome) (agents : Agents) (fuel : Nat)
        (code : String) (st : CallState) (v : Option OutValue) (l : String) (b : Bool),
        (callLoop remote agents fuel code st).2 = CallResult.ok v l b →
        b = (callLoop remote agents fuel code st).1.final_answer) :=
  ⟨rfl, run_code_flag, callLoop_flag_mono, callLoop_ok_flag⟩

/-- Witness for C7 at a concrete submission and a concrete loop run. -/
theorem C7_witness :
    (run_code_raise_errors oracleQuiet false "z = final_answer(q)").1
        = (false || hasFinalAnswerCall "z = final_answer(q)")
    ∧ (callLoop oracleQuiet [] 1 "x = 1" { final_answer := true }).1.final_answer = true :=
  ⟨C7_final_answer_flag_monotone.2.1 oracleQuiet false "z = final_answer(q)",
   C7_final_answer_flag_monotone.2.2.1 oracleQuiet [] 1 "x = 1" { final_answer := true } rfl⟩

/-- Claim C8 (counterexample): pushing `sub_agent ↦ v1` at call start and
re-pushing `sub_agent ↦ v2` after the interception leaves the staged file
holding `v2` but the remote variable still bound to `v1`: the
interception-time re-upload (source lines 182-186) never runs the remote
deserialization step, so the remote binding is not refreshed. -/
theorem C8_counterexample :
    bLookup (call oracleRepush agentsRepush 2 codeRepush
        [("sub_agent", "v1")] {} false).1.sbx.vars "sub_agent" = some "v1"
    ∧ (call oracleRepush agentsRepush 2 codeRepush
        [("sub_agent", "v1")] {} false).1.sbx.stagedFile = some [("sub_agent", "v2")]
    ∧ (call oracleRepush agentsRepush 2 codeRepush
        [("sub_agent", "v1")] {} false).2 = CallResult.ok none "" false := by
  refine ⟨?_, ?_, ?_⟩ <;> rfl

/-- Claim C8 (amended): every push overwrites the staged file with the full
serialized bundle, and a push followed by the remote deserialization step
(as performed at the start of an external call) rebinds every key, so after
two such deserializing pushes the remote variable holds the later bundle's
value; the interception-time re-push alone rewrites only the staged file. -/
theorem C8_amended_staged_push (sbx : Sandbox) (b1 b2 : Bundle) (k : String) (v2 : Value)
    (hnodup : (bKeys b2).Nodup) (hk : bLookup b2 k = some v2) :
    (pushState sbx b2).stagedFile = some b2
    ∧ bLookup (runUnloading (pushState (runUnloading (pushState sbx b1)) b2)).vars k
        = some v2 := by
  refine ⟨rfl, ?_⟩
  simp only [pushState, runUnloading, Option.getD_some]
  exact bUpdateAll_lookup b2 _ k v2 hnodup hk

/-- Witness for the amended C8: key `k` pushed as `v1` then `v2`, each
followed by deserialization, ends bound to `v2`. -/
theorem C8_amended_witness :
    (pushState { stagedFile := none, vars := [] } [("k", "v2")]).stagedFile
        = some [("k", "v2")]
    ∧ bLookup (runUnloading (pushState
        (runUnloading (pushState { stagedFile := none, vars := [] } [("k", "v1")]))
        [("k", "v2")])).vars "k" = some "v2" :=
  C8_amended_staged_push { stagedFile := none, vars := [] } [("k", "v1")] [("k", "v2")]
    "k" "v2" (by decide) (by decide)

/-- Claim C9 (counterexample): when the intercepted line is not an
assignment (`print(agent(1))`), the rewrite silently takes the whole line
as the assignment target and resubmits the malformed program — it does not
fail or flag the case: the loop completes normally. -/
theorem C9_counterexample :
    rewriteCodeAction codeNonAssign 1 "r"
        = "print(agent(1)) = 'r'\nprint(agent(1))\nrest = 2"
    ∧ (callLoop oracleNonAssign [("sub_agent", fun _ _ => "r")] 2 codeNonAssign {}).2
        = CallResult.ok none "" false
    ∧ (callLoop oracleNonAssign [("sub_agent", fun _ _ => "r")] 2
        codeNonAssign {}).1.submissions
        = [codeNonAssign, "print(agent(1)) = 'r'\nprint(agent(1))\nrest = 2"] := by
  refine ⟨?_, ?_, ?_⟩ <;> rfl

/-- Claim C9 (amended): the rewrite never flags unsupported call-site
shapes: for a reported line with no `=` at all, the entire stripped line
becomes the assignment target of `target = repr(result)` prepended to the
lines from the call site onward. -/
theorem C9_amended_rewrite_unconditional
    (code : String) (n : Nat) (result : Value) (line : String)
    (hline : (splitlines code).getD (n - 1) "" = line)
    (hnoeq : '=' ∉ line.data) :
    rewriteCodeAction code n result
      = String.intercalate "\n"
          ((pyStrip line ++ " = " ++ pyRepr result) :: (splitlines code).drop (n - 1)) := by
  have hbe : beforeFirstEq line = line := by
    unfold beforeFirstEq
    have ht : line.data.takeWhile (fun c => c ≠ '=') = line.data :=
      List.takeWhile_eq_self_iff.mpr (by
        intro c hc
        simp only [ne_eq, decide_eq_true_eq]
        intro he
        exact hnoeq (he ▸ hc))
    rw [ht]
  calc rewriteCodeAction code n result
      = String.intercalate "\n"
          ((pyStrip (beforeFirstEq ((splitlines code).getD (n - 1) "")) ++ " = "
              ++ pyRepr result)
            :: (splitlines code).drop (n - 1)) := rfl
    _ = String.intercalate "\n"
          ((pyStrip line ++ " = " ++ pyRepr result)
            :: (splitlines code).drop (n - 1)) := by rw [hline, hbe]

/-- Witness for the amended C9 at a concrete non-assignment line. -/
theorem C9_amended_witness :
    rewriteCodeAction "print(foo(1))" 1 "r"
      = String.intercalate "\n"
          ((pyStrip "print(foo(1))" ++ " = " ++ pyRepr "r")
            :: (splitlines "print(foo(1))").drop (1 - 1)) :=
  C9_amended_rewrite_unconditional "print(foo(1))" 1 "r" "print(foo(1))"
    (by rfl) (by decide)

/-- Claim C10: on an interception whose reported line number is invalid,
the failure is not atomic: the named capability has already been invoked
locally with the reported arguments, its result stored in the shared-state
dict under the reported name, and the updated bundle re-staged to the
remote file — only the resubmission is withheld before the invalid-line
error is raised. -/
theorem C10_invalid_line_failure_not_atomic
    (remote : String → RunOutcome) (agents : Agents) (fuel : Nat) (code : String)
    (st : CallState) (h : Handoff) (f : AgentFun)
    (hrun : remote code = RunOutcome.interrupt h)
    (hagent : lookupAgent agents h.agent_name = some f)
    (hbad : validLineNumber h.line_number (splitlines code).length = false) :
    (callLoop remote agents (fuel + 1) code st).1.invocations
        = st.invocations ++ [(h.agent_name, h.args, h.kwargs)]
    ∧ (callLoop remote agents (fuel + 1) code st).1.additional_args
        = bInsert st.additional_args h.agent_name (f h.args h.kwargs)
    ∧ (callLoop remote agents (fuel + 1) code st).1.sbx.stagedFile
        = some (bInsert st.additional_args h.agent_name (f h.args h.kwargs))
    ∧ (callLoop remote agents (fuel + 1) code st).2
        = CallResult.raised (Raised.interceptionProtocolError h.line_number code)
    ∧ (callLoop remote agents (fuel + 1) code st).1.submissions
        = st.submissions ++ [code] := by
  refine ⟨?_, ?_, ?_, ?_, ?_⟩ <;>
    simp [callLoop, run_code_raise_errors, hrun, hagent, hbad, pushState]

/-- Witness for C10 at a concrete interception with an absent line number. -/
theorem C10_witness :
    (callLoop (fun _ => RunOutcome.interrupt
        { agent_name := "sub_agent", args := ["a"], kwargs := [("kw", "w")],
          line_number := none })
      [("sub_agent", fun _ _ => "res")] 1 "x = 1" {}).1.invocations
        = ({} : CallState).invocations ++ [("sub_agent", ["a"], [("kw", "w")])]
    ∧ (callLoop (fun _ => RunOutcome.interrupt
        { agent_name := "sub_agent", args := ["a"], kwargs := [("kw", "w")],
          line_number := none })
      [("sub_agent", fun _ _ => "res")] 1 "x = 1" {}).1.additional_args
        = bInsert ({} : CallState).additional_args "sub_agent"
            ((fun _ _ => "res" : AgentFun) ["a"] [("kw", "w")])
    ∧ (callLoop (fun _ => RunOutcome.interrupt
        { agent_name := "sub_agent", args := ["a"], kwargs := [("kw", "w")],
          line_number := none })
      [("sub_agent", fun _ _ => "res")] 1 "x = 1" {}).1.sbx.stagedFile
        = some (bInsert ({} : CallState).additional_args "sub_agent"
            ((fun _ _ => "res" : AgentFun) ["a"] [("kw", "w")]))
    ∧ (callLoop (fun _ => RunOutcome.interrupt
        { agent_name := "sub_agent", args := ["a"], kwargs := [("kw", "w")],
          line_number := none })
      [("sub_agent", fun _ _ => "res")] 1 "x = 1" {}).2
        = CallResult.raised (Raised.interceptionProtocolError none "x = 1")
    ∧ (callLoop (fun _ => RunOutcome.interrupt
        { agent_name := "sub_agent", args := ["a"], kwargs := [("kw", "w")],
          line_number := none })
      [("sub_agent", fun _ _ => "res")] 1 "x = 1" {}).1.submissions
        = ({} : CallState).submissions ++ ["x = 1"] :=
  C10_invalid_line_failure_not_atomic _ _ 0 "x = 1" {}
    { agent_name := "sub_agent", args := ["a"], kwargs := [("kw", "w")],
      line_number := none }
    (fun _ _ => "res") rfl rfl rfl

end SmolagentsE2B
